import Mathlib

/-!
Shallow embedding of the Episode Talk Maker API (src/main.py: FastAPI with
pydantic v2 models and a single OpenAI chat call, plus one bounded
length-correction retry), together with theorems checking the specification's
claims about it.

Modelling conventions:

* Python floats are modelled as exact rationals (ℚ); Python's `int(x)` is
  truncation toward zero (`pyInt`).
* The output of Python's `json.loads` is modelled by the `Json` inductive.
  The outcome of one `call_chat` invocation — including the extraction of
  `chat.choices[0].message.content` and the subsequent `json.loads` — is
  modelled by `ChatResult`: the call raised, the content was falsy (None or
  empty), the content was non-empty but not valid JSON, or it parsed to a
  `Json` value.
* pydantic v2 validation of the declared models is embedded field by field:
  required fields, defaults, `ge`/`le` bounds, `Literal` enumerations,
  `extra="forbid"` on `EpisodeOut` only (the nested models `Beat`,
  `ScriptLine` and `Slide` keep pydantic's default of ignoring unknown keys),
  and `max_items=5` on `Slide.bullets`.  pydantic's lax string-to-number
  coercions are not modelled; every payload considered here uses JSON's
  native types, on which the embedded and the real validator agree.
* The `/generate` endpoint (`generate`) is a pure function of the
  configuration flag (`OPENAI_API_KEY` present or not), the configured
  characters-per-second ratio, the request body, and the outcomes of the at
  most two backend calls.  It returns the HTTP outcome together with the
  number of `call_chat` invocations performed.
-/

namespace SelfTalk

/-- JSON values as produced by Python's `json.loads` (object fields keep
insertion order; duplicate keys resolve to the last occurrence, as in a
Python dict built by the parser). -/
inductive Json where
  | null
  | bool (b : Bool)
  | num (q : ℚ)
  | str (s : String)
  | arr (elems : List Json)
  | obj (fields : List (String × Json))

/-- Field lookup in a JSON object: the last binding of the key wins, matching
Python dict construction from parsed JSON. -/
def lookupField (fs : List (String × Json)) (k : String) : Option Json :=
  fs.foldl (fun acc p => if p.1 = k then some p.2 else acc) none

/-- `BeatName = Literal["フック", "事実", "ズレ", "展開", "オチ", "余韻"]` from src/main.py. -/
def beatNames : List String := ["フック", "事実", "ズレ", "展開", "オチ", "余韻"]

/-- `SlideKind = Literal["TITLE", "BULLETS", "PUNCHLINE"]` from src/main.py. -/
def slideKinds : List String := ["TITLE", "BULLETS", "PUNCHLINE"]

/-- Allowed values of `EpisodeIn.target` in src/main.py. -/
def targetNames : List String := ["飲み会", "面接", "自己紹介", "YouTube", "司会", "配信", "その他"]

/-- Allowed values of `EpisodeIn.tone` in src/main.py. -/
def toneNames : List String := ["爽やか", "自虐", "毒弱め", "ノーマル"]

/-- `class EpisodeIn(BaseModel)` from src/main.py (the request body). -/
structure EpisodeIn where
  when : String
  «where» : String
  who : String
  what : String
  emotion : String
  target : String
  tone : String
  duration_sec : Int
  ng : List String
  embellish_rate : Int

/-- The invariants FastAPI/pydantic enforce on the request body at the
boundary: `duration_sec` in [30, 600], `embellish_rate` in [0, 100], and the
two `Literal` enumerations. -/
abbrev EpisodeIn.Valid (ep : EpisodeIn) : Prop :=
  30 ≤ ep.duration_sec ∧ ep.duration_sec ≤ 600
    ∧ 0 ≤ ep.embellish_rate ∧ ep.embellish_rate ≤ 100
    ∧ ep.target ∈ targetNames ∧ ep.tone ∈ toneNames

/-- `class Beat(BaseModel)` from src/main.py. -/
structure Beat where
  id : String
  name : String
  seconds : Int
  summary : String
deriving DecidableEq

/-- `class ScriptLine(BaseModel)` from src/main.py. -/
structure ScriptLine where
  beat_id : String
  seconds : Int
  text : String
  pause : ℚ
  alternatives : List String
deriving DecidableEq

/-- `class Slide(BaseModel)` from src/main.py. -/
structure Slide where
  kind : String
  title : String
  bullets : List String
  note : Option String
deriving DecidableEq

/-- `class EpisodeOut(BaseModel)` from src/main.py (the response body). -/
structure EpisodeOut where
  anonymization_level : Int
  warnings : List String
  beats : List Beat
  script : List ScriptLine
  slides : List Slide
deriving DecidableEq

/-- A required pydantic field: missing key is a validation error, otherwise
the field validator runs on the value. -/
def fieldReq {β : Type} (fs : List (String × Json)) (k : String)
    (f : Json → Except String β) : Except String β :=
  match lookupField fs k with
  | none => .error (k ++ ": Field required")
  | some v => f v

/-- A pydantic field with a default: missing key yields the default,
otherwise the field validator runs on the value. -/
def fieldDef {β : Type} (fs : List (String × Json)) (k : String) (d : β)
    (f : Json → Except String β) : Except String β :=
  match lookupField fs k with
  | none => .ok d
  | some v => f v

/-- pydantic `str` field: only a JSON string is accepted. -/
def asStr : Json → Except String String
  | .str s => .ok s
  | _ => .error "Input should be a valid string"

/-- pydantic `int` field: a JSON number with no fractional part. -/
def asInt : Json → Except String Int
  | .num q => if q.den = 1 then .ok q.num else .error "Input should be a valid integer"
  | _ => .error "Input should be a valid integer"

/-- pydantic `float` field: any JSON number. -/
def asFloat : Json → Except String ℚ
  | .num q => .ok q
  | _ => .error "Input should be a valid number"

/-- pydantic `Optional[str]` field: `null` or a string. -/
def asOptStr : Json → Except String (Option String)
  | .null => .ok none
  | .str s => .ok (some s)
  | _ => .error "Input should be a valid string"

/-- Element-wise validation of a JSON array, failing on the first bad
element (all-or-nothing, as pydantic list validation is). -/
def validateList {β : Type} (f : Json → Except String β) : List Json → Except String (List β)
  | [] => .ok []
  | x :: xs =>
    match f x with
    | .error m => .error m
    | .ok b =>
      match validateList f xs with
      | .error m => .error m
      | .ok bs => .ok (b :: bs)

/-- pydantic `List[str]` field. -/
def asStrList : Json → Except String (List String)
  | .arr xs => validateList asStr xs
  | _ => .error "Input should be a valid list"

/-- The `name : BeatName` field of `Beat` (a `Literal` enumeration). -/
def asBeatName (j : Json) : Except String String :=
  match asStr j with
  | .error m => .error m
  | .ok s => if s ∈ beatNames then .ok s else .error "name: Input should be a permitted beat name"

/-- The `kind : SlideKind` field of `Slide` (a `Literal` enumeration). -/
def asSlideKind (j : Json) : Except String String :=
  match asStr j with
  | .error m => .error m
  | .ok s => if s ∈ slideKinds then .ok s else .error "kind: Input should be a permitted slide kind"

/-- The `anonymization_level` field of `EpisodeOut`:
`int = Field(..., ge=0, le=2)`. -/
def asAnonLevel (j : Json) : Except String Int :=
  match asInt j with
  | .error m => .error m
  | .ok a => if 0 ≤ a ∧ a ≤ 2 then .ok a else .error "anonymization_level: Input should be between 0 and 2"

/-- The `bullets` field of `Slide`: `Field(default_factory=list, max_items=5)`
(pydantic v2 maps the deprecated `max_items` to a max-length constraint). -/
def asBulletList (j : Json) : Except String (List String) :=
  match asStrList j with
  | .error m => .error m
  | .ok l => if l.length ≤ 5 then .ok l else .error "bullets: List should have at most 5 items"

/-- pydantic construction of a `Beat` from parsed JSON.  All four fields are
required; no `model_config` is declared, so unknown keys are ignored
(pydantic v2 default `extra="ignore"`). -/
def Beat.fromJson (j : Json) : Except String Beat :=
  match j with
  | .obj fs =>
    match fieldReq fs "id" asStr with
    | .error m => .error m
    | .ok i =>
      match fieldReq fs "name" asBeatName with
      | .error m => .error m
      | .ok n =>
        match fieldReq fs "seconds" asInt with
        | .error m => .error m
        | .ok s =>
          match fieldReq fs "summary" asStr with
          | .error m => .error m
          | .ok su => .ok { id := i, name := n, seconds := s, summary := su }
  | _ => .error "beats: Input should be a valid dictionary"

/-- pydantic construction of a `ScriptLine` from parsed JSON.  `beat_id`,
`seconds` and `text` are required; `pause` defaults to `0.0` and
`alternatives` to `[]`; unknown keys are ignored. -/
def ScriptLine.fromJson (j : Json) : Except String ScriptLine :=
  match j with
  | .obj fs =>
    match fieldReq fs "beat_id" asStr with
    | .error m => .error m
    | .ok b =>
      match fieldReq fs "seconds" asInt with
      | .error m => .error m
      | .ok s =>
        match fieldReq fs "text" asStr with
        | .error m => .error m
        | .ok t =>
          match fieldDef fs "pause" (0 : ℚ) asFloat with
          | .error m => .error m
          | .ok p =>
            match fieldDef fs "alternatives" ([] : List String) asStrList with
            | .error m => .error m
            | .ok al => .ok { beat_id := b, seconds := s, text := t, pause := p, alternatives := al }
  | _ => .error "script: Input should be a valid dictionary"

/-- pydantic construction of a `Slide` from parsed JSON.  `kind` and `title`
are required; `bullets` defaults to `[]` (at most 5 items) and `note` to
`None`; unknown keys are ignored. -/
def Slide.fromJson (j : Json) : Except String Slide :=
  match j with
  | .obj fs =>
    match fieldReq fs "kind" asSlideKind with
    | .error m => .error m
    | .ok k =>
      match fieldReq fs "title" asStr with
      | .error m => .error m
      | .ok t =>
        match fieldDef fs "bullets" ([] : List String) asBulletList with
        | .error m => .error m
        | .ok bu =>
          match fieldDef fs "note" (none : Option String) asOptStr with
          | .error m => .error m
          | .ok no => .ok { kind := k, title := t, bullets := bu, note := no }
  | _ => .error "slides: Input should be a valid dictionary"

/-- The field names declared on `EpisodeOut`. -/
def episodeOutKeys : List String := ["anonymization_level", "warnings", "beats", "script", "slides"]

/-- The `beats : List[Beat]` field. -/
def asBeatList (j : Json) : Except String (List Beat) :=
  match j with
  | .arr xs => validateList Beat.fromJson xs
  | _ => .error "beats: Input should be a valid list"

/-- The `script : List[ScriptLine]` field. -/
def asScriptList (j : Json) : Except String (List ScriptLine) :=
  match j with
  | .arr xs => validateList ScriptLine.fromJson xs
  | _ => .error "script: Input should be a valid list"

/-- The `slides : List[Slide]` field. -/
def asSlideList (j : Json) : Except String (List Slide) :=
  match j with
  | .arr xs => validateList Slide.fromJson xs
  | _ => .error "slides: Input should be a valid list"

/-- pydantic construction `EpisodeOut(**data)` from parsed JSON:
`extra="forbid"` rejects unknown top-level keys; `anonymization_level`,
`beats`, `script` and `slides` are required; `warnings` defaults to `[]`.
Note that the model declares no minimum length for `beats`, `script` or
`slides` and no lower bound for a line's `pause`. -/
def EpisodeOut.fromJson (j : Json) : Except String EpisodeOut :=
  match j with
  | .obj fs =>
    if ∀ p ∈ fs, p.1 ∈ episodeOutKeys then
      match fieldReq fs "anonymization_level" asAnonLevel with
      | .error m => .error m
      | .ok a =>
        match fieldDef fs "warnings" ([] : List String) asStrList with
        | .error m => .error m
        | .ok w =>
          match fieldReq fs "beats" asBeatList with
          | .error m => .error m
          | .ok bs =>
            match fieldReq fs "script" asScriptList with
            | .error m => .error m
            | .ok sc =>
              match fieldReq fs "slides" asSlideList with
              | .error m => .error m
              | .ok sl =>
                .ok { anonymization_level := a, warnings := w, beats := bs, script := sc, slides := sl }
    else .error "Extra inputs are not permitted"
  | _ => .error "Input should be a valid dictionary"

/-- Python's `int(x)`: truncation toward zero, modelled on ℚ. -/
def pyInt (q : ℚ) : Int := if 0 ≤ q then ⌊q⌋ else ⌈q⌉

/-- `build_system_prompt()` from src/main.py: a fixed instruction string. -/
def build_system_prompt : String :=
  "あなたは日本語の“間”と弱毒ユーモアに最適化された放送作家です。"
    ++ "ユーザーの出来事を、飲み会/面接/配信など状況に応じたトーンで、"
    ++ "フック→事実→ズレ→展開→オチ→余韻の構成に割り当て、"
    ++ "1行80字以内の口語台本を生成します。"
    ++ "総尺は指定±15%以内。"
    ++ "差別/誹謗中傷は弱毒化し、NGワードは出力に含めません。"
    ++ "各パート秒数、スライド（TITLE/BULLETS/PUNCHLINE）も出力します。"
    ++ "出力は必ず与えたJSONスキーマに完全準拠してください。"

/-- `build_user_prompt(ep)` from src/main.py, with the module constant
`CHARS_PER_SEC` passed explicitly.  Returns the user prompt together with
`target_chars = int(duration_sec * cps)`, `min_chars = int(target_chars * 0.85)`
and `max_chars = int(target_chars * 1.15)`. -/
def build_user_prompt (cps : ℚ) (ep : EpisodeIn) : String × Int × Int × Int :=
  let ng_join := if ep.ng.isEmpty then "（なし）" else String.intercalate ", " ep.ng
  let target_chars := pyInt ((ep.duration_sec : ℚ) * cps)
  let min_chars := pyInt ((target_chars : ℚ) * (0.85 : ℚ))
  let max_chars := pyInt ((target_chars : ℚ) * (1.15 : ℚ))
  let emb := ep.embellish_rate
  let w := ep.when
  let wh := ep.«where»
  let o := ep.who
  let a := ep.what
  let e := ep.emotion
  let g := ep.target
  let n := ep.tone
  let d := ep.duration_sec
  let prompt :=
    "入力:\n"
      ++ s!"- いつ: {w}\n"
      ++ s!"- どこ: {wh}\n"
      ++ s!"- 誰と: {o}\n"
      ++ s!"- 何が: {a}\n"
      ++ s!"- 感情: {e}\n"
      ++ s!"- ターゲット: {g}\n"
      ++ s!"- トーン: {n}\n"
      ++ s!"- 尺(秒): {d}\n"
      ++ s!"- 脚色率(0-100): {emb}\n"
      ++ s!"- NGワード: {ng_join}\n\n"
      ++ "要件:\n"
      ++ "【要点（=骨子）】\n"
      ++ "- フック/事実/ズレ/展開/オチ/余韻 の6項目。\n"
      ++ "- 各項目は **短く一文**、上限30文字/項目。事実の核のみ。比喩や擬音は使わない。脚色は行わない。\n"
      ++ "- 各項目に推奨秒数を割当（合計は尺の±15%）。\n\n"
      ++ "【台本】\n"
      ++ "- 口語、自然な一人語り調。1行80字以内で改行。\n"
      ++ s!"- 総文字数は 約 {target_chars} 文字（許容レンジ {min_chars}–{max_chars} 文字）。\n"
      ++ "- [間x.xs] 等の表記は付けない。\n"
      ++ s!"- 脚色率 {emb}% に応じて演出度を調整：\n"
      ++ "  ・0%: 事実重視。誇張なし。具体的描写は控えめ。\n"
      ++ "  ・50%: 比喩・擬音・テンポの工夫で“面白いけど現実感”。\n"
      ++ "  ・100%: 誇張/比喩/擬音を大胆に。筋は変えずに演出強化。\n\n"
      ++ "【スライド】\n"
      ++ "- TITLE/BULLETS/PUNCHLINE の3–6枚。\n"
      ++ "- BULLETSは短文で要点のみ。\n"
      ++ "\n出力は与えたJSONスキーマに厳密準拠すること。"
  (prompt, target_chars, min_chars, max_chars)

/-- `build_adjust_prompt(current_texts, min_chars, max_chars)` from src/main.py. -/
def build_adjust_prompt (current_texts : List String) (min_chars max_chars : Int) : String :=
  let joined := String.intercalate "\n" current_texts
  "次の台本テキスト群は、総文字数が目標レンジ外です。"
    ++ s!"総文字数が {min_chars}〜{max_chars} の範囲に入るよう、"
    ++ "構成（ビート数）・要点・スライドは変えずに、台本の text のみを増減して再出力してください。"
    ++ "JSON スキーマは同一で、script の text を中心に調整すること。\n\n"
    ++ s!"【現在の台本テキスト】\n{joined}\n"

/-- `count_script_chars(script)` from src/main.py: the total character count
of the line texts (Python `len` on `str`, i.e. code points). -/
def count_script_chars (script : List ScriptLine) : Nat :=
  (script.map (fun s => s.text.length)).sum

/-- `output_json_schema()` from src/main.py, as a JSON value. -/
def output_json_schema : Json :=
  .obj [
    ("type", .str "object"),
    ("additionalProperties", .bool false),
    ("properties", .obj [
      ("anonymization_level", .obj [("type", .str "integer"), ("minimum", .num 0), ("maximum", .num 2)]),
      ("warnings", .obj [("type", .str "array"), ("items", .obj [("type", .str "string")])]),
      ("beats", .obj [
        ("type", .str "array"),
        ("minItems", .num 6),
        ("items", .obj [
          ("type", .str "object"),
          ("additionalProperties", .bool false),
          ("properties", .obj [
            ("id", .obj [("type", .str "string")]),
            ("name", .obj [("type", .str "string"),
              ("enum", .arr [.str "フック", .str "事実", .str "ズレ", .str "展開", .str "オチ", .str "余韻"])]),
            ("seconds", .obj [("type", .str "integer"), ("minimum", .num 1)]),
            ("summary", .obj [("type", .str "string")])
          ]),
          ("required", .arr [.str "id", .str "name", .str "seconds", .str "summary"])
        ])
      ]),
      ("script", .obj [
        ("type", .str "array"),
        ("minItems", .num 6),
        ("items", .obj [
          ("type", .str "object"),
          ("additionalProperties", .bool false),
          ("properties", .obj [
            ("beat_id", .obj [("type", .str "string")]),
            ("seconds", .obj [("type", .str "integer"), ("minimum", .num 1)]),
            ("text", .obj [("type", .str "string")]),
            ("pause", .obj [("type", .str "number"), ("minimum", .num 0)]),
            ("alternatives", .obj [("type", .str "array"), ("items", .obj [("type", .str "string")]),
              ("maxItems", .num 0)])
          ]),
          ("required", .arr [.str "beat_id", .str "seconds", .str "text", .str "pause", .str "alternatives"])
        ])
      ]),
      ("slides", .obj [
        ("type", .str "array"),
        ("minItems", .num 3),
        ("maxItems", .num 6),
        ("items", .obj [
          ("type", .str "object"),
          ("additionalProperties", .bool false),
          ("properties", .obj [
            ("kind", .obj [("type", .str "string"),
              ("enum", .arr [.str "TITLE", .str "BULLETS", .str "PUNCHLINE"])]),
            ("title", .obj [("type", .str "string")]),
            ("bullets", .obj [("type", .str "array"), ("items", .obj [("type", .str "string")]),
              ("maxItems", .num 5)]),
            ("note", .obj [("type", .str "string")])
          ]),
          ("required", .arr [.str "kind", .str "title", .str "bullets", .str "note"])
        ])
      ])
    ]),
    ("required", .arr [.str "anonymization_level", .str "warnings", .str "beats", .str "script", .str "slides"])
  ]

/-- Does a schema node carry `"type": "object"`? -/
def typeIsObject (j : Json) : Bool :=
  match j with
  | .obj fs =>
    match lookupField fs "type" with
    | some (.str t) => t == "object"
    | _ => false
  | _ => false

/-- The strings among a list of JSON values. -/
def asStrings (xs : List Json) : List String :=
  xs.filterMap (fun j => match j with | .str s => some s | _ => none)

/-- A schema object node is closed and fully required: it declares
`additionalProperties: false` and its `required` list names exactly its
property keys. -/
def closedStrict (j : Json) : Bool :=
  match j with
  | .obj fs =>
    (match lookupField fs "additionalProperties" with
     | some (.bool false) => true
     | _ => false)
    && (match lookupField fs "properties", lookupField fs "required" with
        | some (.obj props), some (.arr req) =>
          req.all (fun r => match r with | .str _ => true | _ => false)
            && (props.map (fun p => p.1)).all (fun k => (asStrings req).contains k)
            && (asStrings req).all (fun k => (props.map (fun p => p.1)).contains k)
        | _, _ => false)
  | _ => false

/-- All schema nodes with `"type": "object"`, collected to the given depth
(the fuel bounds the recursion; the schema literal has depth below 8). -/
def objectNodes : Nat → Json → List Json
  | 0, _ => []
  | n + 1, j =>
    match j with
    | .obj fs =>
      (if typeIsObject (.obj fs) then [Json.obj fs] else [])
        ++ (fs.map (fun p => objectNodes n p.2)).flatten
    | .arr xs => (xs.map (objectNodes n)).flatten
    | _ => []

/-- The outcome of one `call_chat` invocation, as seen by `generate`:
the call raised; it returned falsy content (`None` or `""`); it returned
non-empty content that `json.loads` rejects (the carried string is the
exception's message); or it returned non-empty content parsing to a JSON
value. -/
inductive ChatResult where
  | raise (msg : String)
  | empty
  | invalid (msg : String)
  | json (data : Json)

/-- `fastapi.HTTPException`, reduced to the two fields src/main.py uses. -/
structure HTTPException where
  status_code : Nat
  detail : String
deriving DecidableEq

/-- The `/health` response `{"ok": True, "openai_key_configured": bool(OPENAI_API_KEY)}`. -/
structure HealthOut where
  ok : Bool
  openai_key_configured : Bool
deriving DecidableEq

/-- The `/health` endpoint from src/main.py. -/
def health (openai_key_present : Bool) : HealthOut :=
  { ok := true, openai_key_configured := openai_key_present }

/-- The `/generate` endpoint from src/main.py as a function of the
credential flag (`client is None` exactly when `OPENAI_API_KEY` is absent),
the configured `CHARS_PER_SEC`, the request body, and the outcomes of the at
most two `call_chat` invocations.  Returns the HTTP outcome (a 200 body or a
raised `HTTPException`, every exception inside the `try` being caught and
re-raised as a 500 with `detail=str(e)`) together with the number of
`call_chat` invocations performed. -/
def generate (openai_key_present : Bool) (cps : ℚ) (ep : EpisodeIn)
    (call1 call2 : ChatResult) : Except HTTPException EpisodeOut × Nat :=
  match openai_key_present with
  | false => (.error { status_code := 503, detail := "OPENAI_API_KEY is not configured on server" }, 0)
  | true =>
    let up := build_user_prompt cps ep
    let min_chars := up.2.2.1
    let max_chars := up.2.2.2
    match call1 with
    | .raise m => (.error { status_code := 500, detail := m }, 1)
    | .empty => (.error { status_code := 500, detail := "Empty content from OpenAI (1st try)" }, 1)
    | .invalid m => (.error { status_code := 500, detail := m }, 1)
    | .json data =>
      match EpisodeOut.fromJson data with
      | .error m => (.error { status_code := 500, detail := m }, 1)
      | .ok out =>
        let total : Int := count_script_chars out.script
        if min_chars ≤ total ∧ total ≤ max_chars then
          (.ok out, 1)
        else
          match call2 with
          | .raise m => (.error { status_code := 500, detail := m }, 2)
          | .empty => (.ok out, 2)
          | .invalid m => (.error { status_code := 500, detail := m }, 2)
          | .json data2 =>
            match EpisodeOut.fromJson data2 with
            | .error m => (.error { status_code := 500, detail := m }, 2)
            | .ok out2 =>
              let total2 : Int := count_script_chars out2.script
              if min_chars ≤ total2 ∧ total2 ≤ max_chars then (.ok out2, 2) else (.ok out, 2)

/-- The length acceptance test of the controller: the total script character
count of a candidate lies in the `[min_chars, max_chars]` range computed by
`build_user_prompt`. -/
abbrev inRange (cps : ℚ) (ep : EpisodeIn) (out : EpisodeOut) : Prop :=
  (build_user_prompt cps ep).2.2.1 ≤ (count_script_chars out.script : Int)
    ∧ (count_script_chars out.script : Int) ≤ (build_user_prompt cps ep).2.2.2

/-! Concrete request bodies and payloads used by witnesses and
counterexamples. -/

/-- A valid request body with `duration_sec = 30`. -/
def epW : EpisodeIn :=
  { when := "昨日", «where» := "駅前", who := "同僚", what := "傘を忘れた", emotion := "恥ずかしい",
    target := "飲み会", tone := "ノーマル", duration_sec := 30, ng := [], embellish_rate := 20 }

/-- The worked example of the specification: `duration_sec = 120`. -/
def epExample : EpisodeIn :=
  { when := "先週", «where» := "会議室", who := "上司", what := "資料を取り違えた", emotion := "焦り",
    target := "飲み会", tone := "ノーマル", duration_sec := 120, ng := [], embellish_rate := 20 }

/-- A script-line payload with the given text (all fields explicit). -/
def lineJson (t : String) : Json :=
  .obj [("beat_id", .str "b1"), ("seconds", .num 2), ("text", .str t),
        ("pause", .num 0), ("alternatives", .arr [])]

/-- The 30-character line text used by the in-range witness payload. -/
def textW : String := "abcdefghijklmnopqrstuvwxyz1234"

/-- The fields of the in-range witness payload. -/
def jWFields : List (String × Json) :=
  [("anonymization_level", .num 1), ("warnings", .arr []), ("beats", .arr []),
   ("script", .arr [lineJson textW]), ("slides", .arr [])]

/-- A payload the validator accepts whose script totals 30 characters
(in range for `epW` with `cps = 1`). -/
def jW : Json := .obj jWFields

/-- The `EpisodeOut` value `jW` validates to. -/
def outW : EpisodeOut :=
  { anonymization_level := 1, warnings := [],
    beats := [],
    script := [{ beat_id := "b1", seconds := 2, text := textW, pause := 0, alternatives := [] }],
    slides := [] }

/-- A payload the validator accepts whose script totals 1 character
(out of range for `epW` with `cps = 1`). -/
def jShortA : Json :=
  .obj [("anonymization_level", .num 1), ("warnings", .arr []), ("beats", .arr []),
        ("script", .arr [lineJson "x"]), ("slides", .arr [])]

/-- The `EpisodeOut` value `jShortA` validates to. -/
def outShortA : EpisodeOut :=
  { anonymization_level := 1, warnings := [],
    beats := [],
    script := [{ beat_id := "b1", seconds := 2, text := "x", pause := 0, alternatives := [] }],
    slides := [] }

/-- A payload the validator accepts although it has no beats, no slides, a
single script line, and a negative pause. -/
def jLens : Json :=
  .obj [("anonymization_level", .num 0), ("warnings", .arr []), ("beats", .arr []),
        ("script", .arr [.obj [("beat_id", .str "b1"), ("seconds", .num 1), ("text", .str "x"),
                               ("pause", .num (-1)), ("alternatives", .arr [])]]),
        ("slides", .arr [])]

/-- The `EpisodeOut` value `jLens` validates to. -/
def outLens : EpisodeOut :=
  { anonymization_level := 0, warnings := [],
    beats := [],
    script := [{ beat_id := "b1", seconds := 1, text := "x", pause := -1, alternatives := [] }],
    slides := [] }

/-- The fields of the script-line payload with `pause` and `alternatives`
missing. -/
def lineNoPauseFields : List (String × Json) :=
  [("beat_id", .str "b1"), ("seconds", .num 3), ("text", .str "xy")]

/-- The `ScriptLine` value `lineNoPauseFields` validates to. -/
def lineNoPause : ScriptLine :=
  { beat_id := "b1", seconds := 3, text := "xy", pause := 0, alternatives := [] }

/-- The fields of a payload in which `warnings` and the script line's
`pause` and `alternatives` are missing. -/
def jDefaultsFields : List (String × Json) :=
  [("anonymization_level", .num 2), ("beats", .arr []),
   ("script", .arr [.obj lineNoPauseFields]), ("slides", .arr [])]

/-- A payload in which `warnings` and the script line's `pause` and
`alternatives` are missing. -/
def jDefaults : Json := .obj jDefaultsFields

/-- The `EpisodeOut` value `jDefaults` validates to: the missing fields are
default-filled. -/
def outDefaults : EpisodeOut :=
  { anonymization_level := 2, warnings := [],
    beats := [],
    script := [{ beat_id := "b1", seconds := 3, text := "xy", pause := 0, alternatives := [] }],
    slides := [] }

/-- The fields of a beat payload carrying an unknown key `"mood"`. -/
def beatExtraFields : List (String × Json) :=
  [("id", .str "b1"), ("name", .str "フック"), ("seconds", .num 3), ("summary", .str "s"),
   ("mood", .str "うれしい")]

/-- A payload whose beat carries the unknown key `"mood"`. -/
def jBeatExtra : Json :=
  .obj [("anonymization_level", .num 1), ("warnings", .arr []),
        ("beats", .arr [.obj beatExtraFields]),
        ("script", .arr []), ("slides", .arr [])]

/-- The `EpisodeOut` value `jBeatExtra` validates to: the unknown beat key is
silently dropped. -/
def outBeatExtra : EpisodeOut :=
  { anonymization_level := 1, warnings := [],
    beats := [{ id := "b1", name := "フック", seconds := 3, summary := "s" }],
    script := [], slides := [] }

/-! Helper lemmas: projections of `build_user_prompt`, `pyInt`, inversion
principles for the embedded pydantic validators, and branch lemmas for
`generate`. -/

lemma build_user_prompt_target (cps : ℚ) (ep : EpisodeIn) :
    (build_user_prompt cps ep).2.1 = pyInt ((ep.duration_sec : ℚ) * cps) := rfl

lemma build_user_prompt_min (cps : ℚ) (ep : EpisodeIn) :
    (build_user_prompt cps ep).2.2.1
      = pyInt ((pyInt ((ep.duration_sec : ℚ) * cps) : ℚ) * (0.85 : ℚ)) := rfl

lemma build_user_prompt_max (cps : ℚ) (ep : EpisodeIn) :
    (build_user_prompt cps ep).2.2.2
      = pyInt ((pyInt ((ep.duration_sec : ℚ) * cps) : ℚ) * (1.15 : ℚ)) := rfl

lemma pyInt_eq_floor {q : ℚ} (h : 0 ≤ q) : pyInt q = ⌊q⌋ := if_pos h

lemma fieldReq_ok {β : Type} {fs : List (String × Json)} {k : String}
    {f : Json → Except String β} {b : β} (h : fieldReq fs k f = .ok b) :
    ∃ v, lookupField fs k = some v ∧ f v = .ok b := by
  unfold fieldReq at h
  split at h
  · simp at h
  · rename_i v hv
    exact ⟨v, hv, h⟩

lemma fieldDef_ok {β : Type} {fs : List (String × Json)} {k : String} {d : β}
    {f : Json → Except String β} {b : β} (h : fieldDef fs k d f = .ok b) :
    (lookupField fs k = none ∧ b = d) ∨ ∃ v, lookupField fs k = some v ∧ f v = .ok b := by
  unfold fieldDef at h
  split at h
  · rename_i hn
    simp only [Except.ok.injEq] at h
    exact Or.inl ⟨hn, h.symm⟩
  · rename_i v hv
    exact Or.inr ⟨v, hv, h⟩

lemma asAnonLevel_ok {v : Json} {a : Int} (h : asAnonLevel v = .ok a) : 0 ≤ a ∧ a ≤ 2 := by
  unfold asAnonLevel at h
  split at h
  · simp at h
  · split at h
    · rename_i hc
      simp only [Except.ok.injEq] at h
      exact h ▸ hc
    · simp at h

lemma asBeatName_ok {v : Json} {n : String} (h : asBeatName v = .ok n) : n ∈ beatNames := by
  unfold asBeatName at h
  split at h
  · simp at h
  · split at h
    · rename_i hc
      simp only [Except.ok.injEq] at h
      exact h ▸ hc
    · simp at h

lemma asSlideKind_ok {v : Json} {n : String} (h : asSlideKind v = .ok n) : n ∈ slideKinds := by
  unfold asSlideKind at h
  split at h
  · simp at h
  · split at h
    · rename_i hc
      simp only [Except.ok.injEq] at h
      exact h ▸ hc
    · simp at h

lemma asBulletList_ok {v : Json} {l : List String} (h : asBulletList v = .ok l) :
    l.length ≤ 5 := by
  unfold asBulletList at h
  split at h
  · simp at h
  · split at h
    · rename_i hc
      simp only [Except.ok.injEq] at h
      exact h ▸ hc
    · simp at h

lemma validateList_mem {β : Type} {f : Json → Except String β} :
    ∀ {xs : List Json} {bs : List β}, validateList f xs = .ok bs →
      ∀ b ∈ bs, ∃ x, x ∈ xs ∧ f x = .ok b := by
  intro xs
  induction xs with
  | nil =>
    intro bs h b hb
    simp only [validateList, Except.ok.injEq] at h
    subst h
    simp at hb
  | cons x xs ih =>
    intro bs h b hb
    simp only [validateList] at h
    split at h
    · simp at h
    · rename_i y hy
      split at h
      · simp at h
      · rename_i ys hys
        simp only [Except.ok.injEq] at h
        subst h
        rcases List.mem_cons.mp hb with hb | hb
        · exact ⟨x, List.mem_cons_self x xs, hb ▸ hy⟩
        · obtain ⟨x', hx', hfx'⟩ := ih hys b hb
          exact ⟨x', List.mem_cons_of_mem x hx', hfx'⟩

lemma asBeatList_ok {v : Json} {bs : List Beat} (h : asBeatList v = .ok bs) :
    ∃ xs, v = .arr xs ∧ validateList Beat.fromJson xs = .ok bs := by
  unfold asBeatList at h
  split at h
  · rename_i xs
    exact ⟨xs, rfl, h⟩
  · simp at h

lemma asScriptList_ok {v : Json} {sc : List ScriptLine} (h : asScriptList v = .ok sc) :
    ∃ xs, v = .arr xs ∧ validateList ScriptLine.fromJson xs = .ok sc := by
  unfold asScriptList at h
  split at h
  · rename_i xs
    exact ⟨xs, rfl, h⟩
  · simp at h

lemma asSlideList_ok {v : Json} {sl : List Slide} (h : asSlideList v = .ok sl) :
    ∃ xs, v = .arr xs ∧ validateList Slide.fromJson xs = .ok sl := by
  unfold asSlideList at h
  split at h
  · rename_i xs
    exact ⟨xs, rfl, h⟩
  · simp at h

lemma Beat.fromJson_ok_name {x : Json} {b : Beat} (h : Beat.fromJson x = .ok b) :
    b.name ∈ beatNames := by
  cases x <;> simp only [Beat.fromJson] at h
  case obj fs =>
    split at h
    · simp at h
    · rename_i i hid
      split at h
      · simp at h
      · rename_i n hname
        split at h
        · simp at h
        · rename_i s hsec
          split at h
          · simp at h
          · rename_i su hsum
            simp only [Except.ok.injEq] at h
            subst h
            obtain ⟨v, _, hv⟩ := fieldReq_ok hname
            exact asBeatName_ok hv
  all_goals simp at h

lemma scriptLine_fromJson_obj_ok {fs : List (String × Json)} {line : ScriptLine}
    (h : ScriptLine.fromJson (.obj fs) = .ok line) :
    fieldReq fs "beat_id" asStr = .ok line.beat_id
    ∧ fieldReq fs "seconds" asInt = .ok line.seconds
    ∧ fieldReq fs "text" asStr = .ok line.text
    ∧ fieldDef fs "pause" (0 : ℚ) asFloat = .ok line.pause
    ∧ fieldDef fs "alternatives" ([] : List String) asStrList = .ok line.alternatives := by
  simp only [ScriptLine.fromJson] at h
  split at h
  · simp at h
  · rename_i b hb
    split at h
    · simp at h
    · rename_i s hs
      split at h
      · simp at h
      · rename_i t ht
        split at h
        · simp at h
        · rename_i p hp
          split at h
          · simp at h
          · rename_i al hal
            simp only [Except.ok.injEq] at h
            subst h
            exact ⟨hb, hs, ht, hp, hal⟩

lemma slide_fromJson_obj_ok {fs : List (String × Json)} {s : Slide}
    (h : Slide.fromJson (.obj fs) = .ok s) :
    fieldReq fs "kind" asSlideKind = .ok s.kind
    ∧ fieldReq fs "title" asStr = .ok s.title
    ∧ fieldDef fs "bullets" ([] : List String) asBulletList = .ok s.bullets
    ∧ fieldDef fs "note" (none : Option String) asOptStr = .ok s.note := by
  simp only [Slide.fromJson] at h
  split at h
  · simp at h
  · rename_i k hk
    split at h
    · simp at h
    · rename_i t ht
      split at h
      · simp at h
      · rename_i bu hbu
        split at h
        · simp at h
        · rename_i no hno
          simp only [Except.ok.injEq] at h
          subst h
          exact ⟨hk, ht, hbu, hno⟩

lemma Slide.fromJson_ok_props {x : Json} {s : Slide} (h : Slide.fromJson x = .ok s) :
    s.kind ∈ slideKinds ∧ s.bullets.length ≤ 5 := by
  cases x <;> simp only [Slide.fromJson] at h
  case obj fs =>
    obtain ⟨hk, _, hbu, _⟩ := slide_fromJson_obj_ok h
    constructor
    · obtain ⟨v, _, hv⟩ := fieldReq_ok hk
      exact asSlideKind_ok hv
    · rcases fieldDef_ok hbu with ⟨_, hd⟩ | ⟨v, _, hv⟩
      · rw [hd]
        simp
      · exact asBulletList_ok hv
  all_goals simp at h

lemma episodeOut_fromJson_obj_ok {fs : List (String × Json)} {out : EpisodeOut}
    (h : EpisodeOut.fromJson (.obj fs) = .ok out) :
    (∀ p ∈ fs, p.1 ∈ episodeOutKeys)
    ∧ fieldReq fs "anonymization_level" asAnonLevel = .ok out.anonymization_level
    ∧ fieldDef fs "warnings" ([] : List String) asStrList = .ok out.warnings
    ∧ fieldReq fs "beats" asBeatList = .ok out.beats
    ∧ fieldReq fs "script" asScriptList = .ok out.script
    ∧ fieldReq fs "slides" asSlideList = .ok out.slides := by
  simp only [EpisodeOut.fromJson] at h
  split at h
  · rename_i hall
    split at h
    · simp at h
    · rename_i a ha
      split at h
      · simp at h
      · rename_i w hw
        split at h
        · simp at h
        · rename_i bs hbs
          split at h
          · simp at h
          · rename_i sc hsc
            split at h
            · simp at h
            · rename_i sl hsl
              simp only [Except.ok.injEq] at h
              subst h
              exact ⟨hall, ha, hw, hbs, hsc, hsl⟩
  · simp at h

lemma generate_json1_error {data : Json} {m : String} (cps : ℚ) (ep : EpisodeIn)
    (h : EpisodeOut.fromJson data = .error m) (c2 : ChatResult) :
    generate true cps ep (.json data) c2 = (.error { status_code := 500, detail := m }, 1) := by
  simp only [generate]
  rw [h]

lemma generate_json1_ok_in {cps : ℚ} {ep : EpisodeIn} {data : Json} {out : EpisodeOut}
    (h : EpisodeOut.fromJson data = .ok out) (hin : inRange cps ep out) (c2 : ChatResult) :
    generate true cps ep (.json data) c2 = (.ok out, 1) := by
  simp only [generate]
  rw [h]
  simp only []
  rw [if_pos hin]

lemma generate_2_raise {cps : ℚ} {ep : EpisodeIn} {data : Json} {out : EpisodeOut}
    (h : EpisodeOut.fromJson data = .ok out) (hout : ¬ inRange cps ep out) (m : String) :
    generate true cps ep (.json data) (.raise m) = (.error { status_code := 500, detail := m }, 2) := by
  simp only [generate]
  rw [h]
  simp only []
  rw [if_neg hout]

lemma generate_2_empty {cps : ℚ} {ep : EpisodeIn} {data : Json} {out : EpisodeOut}
    (h : EpisodeOut.fromJson data = .ok out) (hout : ¬ inRange cps ep out) :
    generate true cps ep (.json data) .empty = (.ok out, 2) := by
  simp only [generate]
  rw [h]
  simp only []
  rw [if_neg hout]

lemma generate_2_invalid {cps : ℚ} {ep : EpisodeIn} {data : Json} {out : EpisodeOut}
    (h : EpisodeOut.fromJson data = .ok out) (hout : ¬ inRange cps ep out) (m : String) :
    generate true cps ep (.json data) (.invalid m) = (.error { status_code := 500, detail := m }, 2) := by
  simp only [generate]
  rw [h]
  simp only []
  rw [if_neg hout]

lemma generate_2_json_error {cps : ℚ} {ep : EpisodeIn} {data data2 : Json} {out : EpisodeOut}
    {m : String} (h : EpisodeOut.fromJson data = .ok out) (hout : ¬ inRange cps ep out)
    (h2 : EpisodeOut.fromJson data2 = .error m) :
    generate true cps ep (.json data) (.json data2)
      = (.error { status_code := 500, detail := m }, 2) := by
  simp only [generate]
  rw [h]
  simp only []
  rw [if_neg hout]
  rw [h2]

lemma generate_2_json_ok_in {cps : ℚ} {ep : EpisodeIn} {data data2 : Json} {out out2 : EpisodeOut}
    (h : EpisodeOut.fromJson data = .ok out) (hout : ¬ inRange cps ep out)
    (h2 : EpisodeOut.fromJson data2 = .ok out2) (hin2 : inRange cps ep out2) :
    generate true cps ep (.json data) (.json data2) = (.ok out2, 2) := by
  simp only [generate]
  rw [h]
  simp only []
  rw [if_neg hout]
  rw [h2]
  simp only []
  rw [if_pos hin2]

lemma generate_2_json_ok_out {cps : ℚ} {ep : EpisodeIn} {data data2 : Json} {out out2 : EpisodeOut}
    (h : EpisodeOut.fromJson data = .ok out) (hout : ¬ inRange cps ep out)
    (h2 : EpisodeOut.fromJson data2 = .ok out2) (hout2 : ¬ inRange cps ep out2) :
    generate true cps ep (.json data) (.json data2) = (.ok out, 2) := by
  simp only [generate]
  rw [h]
  simp only []
  rw [if_neg hout]
  rw [h2]
  simp only []
  rw [if_neg hout2]

lemma generate_calls_le_two (k : Bool) (cps : ℚ) (ep : EpisodeIn) (c1 c2 : ChatResult) :
    (generate k cps ep c1 c2).2 ≤ 2 := by
  cases k with
  | false => simp [generate]
  | true =>
    cases c1 with
    | raise m => simp [generate]
    | empty => simp [generate]
    | invalid m => simp [generate]
    | json data =>
      simp only [generate]
      rcases hfj : EpisodeOut.fromJson data with m | out
      · norm_num
      · simp only []
        split
        · norm_num
        · cases c2 with
          | raise m => norm_num
          | empty => norm_num
          | invalid m => norm_num
          | json data2 =>
            rcases hfj2 : EpisodeOut.fromJson data2 with m2 | out2
            · simp only [hfj2]
              norm_num
            · simp only [hfj2]
              split
              · norm_num
              · norm_num

/-! Concrete numeric facts for the witness inputs. -/

lemma pyInt_epW_target : pyInt ((epW.duration_sec : ℚ) * 1) = 30 := by
  norm_num [epW, pyInt, Int.floor_eq_iff]

lemma bup_epW_min : (build_user_prompt 1 epW).2.2.1 = 25 := by
  rw [build_user_prompt_min, pyInt_epW_target]
  norm_num [pyInt, Int.floor_eq_iff]

lemma bup_epW_max : (build_user_prompt 1 epW).2.2.2 = 34 := by
  rw [build_user_prompt_max, pyInt_epW_target]
  norm_num [pyInt, Int.floor_eq_iff]

lemma count_outW : (count_script_chars outW.script : Int) = 30 := by
  have ht : textW.length = 30 := rfl
  simp [count_script_chars, outW, ht]

lemma count_outShortA : (count_script_chars outShortA.script : Int) = 1 := by
  have ht : ("x" : String).length = 1 := rfl
  simp [count_script_chars, outShortA, ht]

lemma inRange_epW_outW : inRange 1 epW outW := by
  constructor
  · rw [bup_epW_min, count_outW]
    norm_num
  · rw [bup_epW_max, count_outW]
    norm_num

lemma not_inRange_epW_outShortA : ¬ inRange 1 epW outShortA := by
  intro h
  have h1 := h.1
  rw [bup_epW_min, count_outShortA] at h1
  norm_num at h1

/-! The claims. -/

/-- C1: Controller selection law for `/generate`: when the first attempt
validates as candidate A, (1) if A's total script character count is in
`[min_chars, max_chars]` then A is returned after one call; (2) if A is out
of range and the second attempt validates as B in range then B is returned;
(3) if A and B are both out of range then A is returned; (4) if A is out of
range and the second call yields empty content then A is returned; and
(5) at most two generation calls are ever made. -/
theorem generate_selection_law (cps : ℚ) (ep : EpisodeIn) (data : Json) (A : EpisodeOut)
    (c2 : ChatResult) (hA : EpisodeOut.fromJson data = .ok A) :
    (inRange cps ep A → generate true cps ep (.json data) c2 = (.ok A, 1))
    ∧ (¬ inRange cps ep A → ∀ data2 B, c2 = .json data2 → EpisodeOut.fromJson data2 = .ok B →
        inRange cps ep B → generate true cps ep (.json data) c2 = (.ok B, 2))
    ∧ (¬ inRange cps ep A → ∀ data2 B, c2 = .json data2 → EpisodeOut.fromJson data2 = .ok B →
        ¬ inRange cps ep B → generate true cps ep (.json data) c2 = (.ok A, 2))
    ∧ (¬ inRange cps ep A → c2 = .empty → generate true cps ep (.json data) c2 = (.ok A, 2))
    ∧ (∀ (k : Bool) (c1 c2' : ChatResult), (generate k cps ep c1 c2').2 ≤ 2) := by
  refine ⟨fun hin => generate_json1_ok_in hA hin c2, ?_, ?_, ?_,
    fun k c1 c2' => generate_calls_le_two k cps ep c1 c2'⟩
  · intro hout data2 B hc2 hB hin2
    subst hc2
    exact generate_2_json_ok_in hA hout hB hin2
  · intro hout data2 B hc2 hB hout2
    subst hc2
    exact generate_2_json_ok_out hA hout hB hout2
  · intro hout hc2
    subst hc2
    exact generate_2_empty hA hout

/-- C1 witness: a concrete in-range candidate is returned unchanged after a
single call. -/
theorem generate_selection_law_witness :
    EpisodeOut.fromJson jW = .ok outW ∧ inRange 1 epW outW
      ∧ generate true 1 epW (.json jW) .empty = (.ok outW, 1) :=
  ⟨rfl, inRange_epW_outW,
    (generate_selection_law 1 epW jW outW .empty rfl).1 inRange_epW_outW⟩

/-- C2 counterexample: the first candidate validates but is out of range and
the second attempt returns non-empty content failing validation; the request
then fails with a 500 error instead of returning the first candidate, so the
claim is false on the code. -/
theorem second_attempt_validation_failure_counterexample :
    EpisodeOut.fromJson jShortA = .ok outShortA
    ∧ ¬ inRange 1 epW outShortA
    ∧ generate true 1 epW (.json jShortA) (.json (.obj [])) =
        (.error { status_code := 500, detail := "anonymization_level: Field required" }, 2) :=
  ⟨rfl, not_inRange_epW_outShortA,
    @generate_2_json_error 1 epW jShortA (.obj []) outShortA
      "anonymization_level: Field required" rfl not_inRange_epW_outShortA rfl⟩

/-- C2 (amended): when the first candidate is out of range and the second
attempt returns non-empty content that fails JSON parsing or schema
validation, the exception propagates and the request fails with a
500-equivalent error carrying that failure's message — the first candidate
is not returned.  (Only empty second content and an out-of-range second
candidate fall back to the first candidate.) -/
theorem second_attempt_validation_failure_propagates (cps : ℚ) (ep : EpisodeIn)
    (data data2 : Json) (A : EpisodeOut) (m m2 : String)
    (hA : EpisodeOut.fromJson data = .ok A) (hout : ¬ inRange cps ep A)
    (h2 : EpisodeOut.fromJson data2 = .error m2) :
    generate true cps ep (.json data) (.invalid m)
      = (.error { status_code := 500, detail := m }, 2)
    ∧ generate true cps ep (.json data) (.json data2)
        = (.error { status_code := 500, detail := m2 }, 2) :=
  ⟨generate_2_invalid hA hout m, generate_2_json_error hA hout h2⟩

/-- C2 witness: the amended claim at a concrete out-of-range first candidate
and a second attempt whose content fails JSON parsing. -/
theorem second_attempt_validation_failure_witness :
    generate true 1 epW (.json jShortA) (.invalid "Expecting value: line 1 column 1 (char 0)")
      = (.error { status_code := 500, detail := "Expecting value: line 1 column 1 (char 0)" }, 2) :=
  (second_attempt_validation_failure_propagates 1 epW jShortA (.obj []) outShortA
    "Expecting value: line 1 column 1 (char 0)" "anonymization_level: Field required"
    rfl not_inRange_epW_outShortA rfl).1

/-- C3 counterexample: the local validator accepts a payload with 0 beats,
1 script line, 0 slides and a negative pause, so the claimed `len(beats) >= 6`,
`3 <= len(slides) <= 6`, `len(script) >= 6` and `pause >= 0` guarantees do
not hold for accepted results. -/
theorem validator_length_bounds_counterexample :
    EpisodeOut.fromJson jLens = .ok outLens
    ∧ outLens.beats.length = 0
    ∧ outLens.script.length = 1
    ∧ outLens.slides.length = 0
    ∧ outLens.script.map (fun l => l.pause) = [(-1 : ℚ)]
    ∧ ((-1 : ℚ) < 0) :=
  ⟨rfl, rfl, rfl, rfl, rfl, by norm_num⟩

/-- C3 (amended): every `EpisodeOut` accepted by the validator has
`anonymization_level ∈ {0, 1, 2}`, carries exactly the §3 top-level fields
(unknown top-level keys are rejected), every beat name is one of the six
narrative-arc values and every slide has a permitted kind with at most 5
bullets; the length bounds on `beats`, `script` and `slides` and the
non-negativity of `pause` are enforced only in the outbound JSON schema, not
by local validation. -/
theorem episodeOut_validator_guarantees (j : Json) (out : EpisodeOut)
    (h : EpisodeOut.fromJson j = .ok out) :
    (0 ≤ out.anonymization_level ∧ out.anonymization_level ≤ 2)
    ∧ (∃ fs, j = .obj fs ∧ ∀ p ∈ fs, p.1 ∈ episodeOutKeys)
    ∧ (∀ b ∈ out.beats, b.name ∈ beatNames)
    ∧ (∀ s ∈ out.slides, s.kind ∈ slideKinds ∧ s.bullets.length ≤ 5) := by
  cases j with
  | obj fs =>
    obtain ⟨hall, ha, hw, hbs, hsc, hsl⟩ := episodeOut_fromJson_obj_ok h
    refine ⟨?_, ⟨fs, rfl, hall⟩, ?_, ?_⟩
    · obtain ⟨v, _, hv⟩ := fieldReq_ok ha
      exact asAnonLevel_ok hv
    · intro b hb
      obtain ⟨v, _, hv⟩ := fieldReq_ok hbs
      obtain ⟨xs, _, hlist⟩ := asBeatList_ok hv
      obtain ⟨x, _, hx⟩ := validateList_mem hlist b hb
      exact Beat.fromJson_ok_name hx
    · intro s hs
      obtain ⟨v, _, hv⟩ := fieldReq_ok hsl
      obtain ⟨xs, _, hlist⟩ := asSlideList_ok hv
      obtain ⟨x, _, hx⟩ := validateList_mem hlist s hs
      exact Slide.fromJson_ok_props hx
  | null => simp [EpisodeOut.fromJson] at h
  | bool b => simp [EpisodeOut.fromJson] at h
  | num q => simp [EpisodeOut.fromJson] at h
  | str s => simp [EpisodeOut.fromJson] at h
  | arr xs => simp [EpisodeOut.fromJson] at h

/-- C3 witness: the amended guarantees at a concrete accepted payload. -/
theorem episodeOut_validator_guarantees_witness :
    0 ≤ outW.anonymization_level ∧ outW.anonymization_level ≤ 2 :=
  (episodeOut_validator_guarantees jW outW rfl).1

/-- C4: the Prompt Builder computes `target_chars = floor(duration_sec * cps)`,
`min_chars = floor(0.85 * target_chars)`, `max_chars = floor(1.15 * target_chars)`,
with `min_chars ≤ target_chars ≤ max_chars`; for `duration_sec = 120` and
`cps = 6.2` it yields `(744, 632, 855)`. -/
theorem prompt_builder_char_counts (cps : ℚ) (ep : EpisodeIn)
    (hv : ep.Valid) (hcps : 0 ≤ cps) :
    (build_user_prompt cps ep).2.1 = ⌊(ep.duration_sec : ℚ) * cps⌋
    ∧ (build_user_prompt cps ep).2.2.1 = ⌊(0.85 : ℚ) * ((build_user_prompt cps ep).2.1 : ℚ)⌋
    ∧ (build_user_prompt cps ep).2.2.2 = ⌊(1.15 : ℚ) * ((build_user_prompt cps ep).2.1 : ℚ)⌋
    ∧ (build_user_prompt cps ep).2.2.1 ≤ (build_user_prompt cps ep).2.1
    ∧ (build_user_prompt cps ep).2.1 ≤ (build_user_prompt cps ep).2.2.2
    ∧ (build_user_prompt (6.2 : ℚ) epExample).2 = ((744 : Int), 632, 855) := by
  have hd : (0 : ℚ) ≤ (ep.duration_sec : ℚ) := by
    have h30 : (0 : ℤ) ≤ ep.duration_sec := le_trans (by norm_num) hv.1
    exact_mod_cast h30
  have hprod : (0 : ℚ) ≤ (ep.duration_sec : ℚ) * cps := mul_nonneg hd hcps
  have ht : (build_user_prompt cps ep).2.1 = ⌊(ep.duration_sec : ℚ) * cps⌋ := by
    rw [build_user_prompt_target, pyInt_eq_floor hprod]
  have htn : (0 : ℤ) ≤ (build_user_prompt cps ep).2.1 := by
    rw [ht]
    exact Int.floor_nonneg.mpr hprod
  have htq : (0 : ℚ) ≤ ((build_user_prompt cps ep).2.1 : ℚ) := by exact_mod_cast htn
  have hmin : (build_user_prompt cps ep).2.2.1
      = ⌊((build_user_prompt cps ep).2.1 : ℚ) * (0.85 : ℚ)⌋ := by
    rw [build_user_prompt_min, ← build_user_prompt_target,
      pyInt_eq_floor (mul_nonneg htq (by norm_num))]
  have hmax : (build_user_prompt cps ep).2.2.2
      = ⌊((build_user_prompt cps ep).2.1 : ℚ) * (1.15 : ℚ)⌋ := by
    rw [build_user_prompt_max, ← build_user_prompt_target,
      pyInt_eq_floor (mul_nonneg htq (by norm_num))]
  refine ⟨ht, ?_, ?_, ?_, ?_, ?_⟩
  · rw [hmin, mul_comm]
  · rw [hmax, mul_comm]
  · rw [hmin]
    have hle : ((build_user_prompt cps ep).2.1 : ℚ) * (0.85 : ℚ)
        ≤ ((build_user_prompt cps ep).2.1 : ℚ) :=
      mul_le_of_le_one_right htq (by norm_num)
    have h2 := Int.floor_mono hle
    rwa [Int.floor_intCast] at h2
  · rw [hmax]
    exact Int.le_floor.mpr (le_mul_of_one_le_right htq (by norm_num))
  · have e1 : pyInt ((epExample.duration_sec : ℚ) * (6.2 : ℚ)) = 744 := by
      norm_num [epExample, pyInt, Int.floor_eq_iff]
    have e2 : pyInt (((744 : ℤ) : ℚ) * (0.85 : ℚ)) = 632 := by
      norm_num [pyInt, Int.floor_eq_iff]
    have e3 : pyInt (((744 : ℤ) : ℚ) * (1.15 : ℚ)) = 855 := by
      norm_num [pyInt, Int.floor_eq_iff]
    have p1 : (build_user_prompt (6.2 : ℚ) epExample).2.1 = 744 := by
      rw [build_user_prompt_target]
      exact e1
    have p2 : (build_user_prompt (6.2 : ℚ) epExample).2.2.1 = 632 := by
      rw [build_user_prompt_min, e1]
      exact e2
    have p3 : (build_user_prompt (6.2 : ℚ) epExample).2.2.2 = 855 := by
      rw [build_user_prompt_max, e1]
      exact e3
    rw [Prod.ext_iff]
    exact ⟨p1, by rw [Prod.ext_iff]; exact ⟨p2, p3⟩⟩

/-- C4 witness: the hypotheses and the worked example hold at
`duration_sec = 120`, `cps = 6.2`. -/
theorem prompt_builder_char_counts_witness :
    epExample.Valid ∧ (0 : ℚ) ≤ (6.2 : ℚ)
    ∧ (build_user_prompt (6.2 : ℚ) epExample).2 = ((744 : Int), 632, 855) :=
  ⟨by decide, by norm_num,
    (prompt_builder_char_counts (6.2 : ℚ) epExample (by decide) (by norm_num)).2.2.2.2.2⟩

/-- C5 counterexample: a payload omitting `warnings` and a script line's
`pause` and `alternatives` is accepted and default-filled, so a missing §3
field does not always fail validation. -/
theorem validator_default_fill_counterexample :
    lookupField jDefaultsFields "warnings" = none
    ∧ lookupField lineNoPauseFields "pause" = none
    ∧ lookupField lineNoPauseFields "alternatives" = none
    ∧ EpisodeOut.fromJson jDefaults = .ok outDefaults
    ∧ outDefaults.warnings = []
    ∧ outDefaults.script.map (fun l => l.pause) = [(0 : ℚ)] :=
  ⟨rfl, rfl, rfl, rfl, rfl, rfl⟩

/-- C5 (amended): validation is all-or-nothing for the fields without
defaults — a missing `anonymization_level`, `beats`, `script` or `slides`
key, or a non-object payload, fails validation — but `warnings`, a line's
`pause` and `alternatives`, and a slide's `note` carry defaults: omitting
them yields a default-filled result rather than an error. -/
theorem validator_required_vs_default_fields :
    (∀ fs out, EpisodeOut.fromJson (.obj fs) = .ok out →
        (lookupField fs "anonymization_level").isSome = true
        ∧ (lookupField fs "beats").isSome = true
        ∧ (lookupField fs "script").isSome = true
        ∧ (lookupField fs "slides").isSome = true)
    ∧ (∀ fs out, EpisodeOut.fromJson (.obj fs) = .ok out → lookupField fs "warnings" = none →
        out.warnings = [])
    ∧ (∀ fs line, ScriptLine.fromJson (.obj fs) = .ok line → lookupField fs "pause" = none →
        line.pause = 0)
    ∧ (∀ fs line, ScriptLine.fromJson (.obj fs) = .ok line →
        lookupField fs "alternatives" = none → line.alternatives = [])
    ∧ (∀ fs s, Slide.fromJson (.obj fs) = .ok s → lookupField fs "note" = none → s.note = none)
    ∧ (∀ xs, EpisodeOut.fromJson (.arr xs) = .error "Input should be a valid dictionary") := by
  refine ⟨?_, ?_, ?_, ?_, ?_, fun xs => rfl⟩
  · intro fs out h
    obtain ⟨_, ha, _, hbs, hsc, hsl⟩ := episodeOut_fromJson_obj_ok h
    refine ⟨?_, ?_, ?_, ?_⟩
    · obtain ⟨v, hv, _⟩ := fieldReq_ok ha
      rw [hv]
      rfl
    · obtain ⟨v, hv, _⟩ := fieldReq_ok hbs
      rw [hv]
      rfl
    · obtain ⟨v, hv, _⟩ := fieldReq_ok hsc
      rw [hv]
      rfl
    · obtain ⟨v, hv, _⟩ := fieldReq_ok hsl
      rw [hv]
      rfl
  · intro fs out h hn
    obtain ⟨_, _, hw, _, _, _⟩ := episodeOut_fromJson_obj_ok h
    simp only [fieldDef, hn, Except.ok.injEq] at hw
    exact hw.symm
  · intro fs line h hn
    obtain ⟨_, _, _, hp, _⟩ := scriptLine_fromJson_obj_ok h
    simp only [fieldDef, hn, Except.ok.injEq] at hp
    exact hp.symm
  · intro fs line h hn
    obtain ⟨_, _, _, _, hal⟩ := scriptLine_fromJson_obj_ok h
    simp only [fieldDef, hn, Except.ok.injEq] at hal
    exact hal.symm
  · intro fs s h hn
    obtain ⟨_, _, _, hno⟩ := slide_fromJson_obj_ok h
    simp only [fieldDef, hn, Except.ok.injEq] at hno
    exact hno.symm

/-- C5 witness: the amended claim at concrete payloads — an accepted payload
has its required key present, and the line with `pause` omitted validates
with `pause = 0`. -/
theorem validator_required_vs_default_fields_witness :
    (lookupField jWFields "anonymization_level").isSome = true ∧ lineNoPause.pause = 0 :=
  ⟨(validator_required_vs_default_fields.1 jWFields outW rfl).1,
   validator_required_vs_default_fields.2.2.1 lineNoPauseFields lineNoPause rfl rfl⟩

/-- C6 counterexample: a payload whose beat carries the unknown key `"mood"`
is accepted by local validation (the key is silently dropped), so unknown
fields are not rejected at every nesting level. -/
theorem nested_extra_field_accepted :
    beatExtraFields.map (fun p => p.1) = ["id", "name", "seconds", "summary", "mood"]
    ∧ ("mood" ∉ ["id", "name", "seconds", "summary"])
    ∧ EpisodeOut.fromJson jBeatExtra = .ok outBeatExtra :=
  ⟨rfl, by decide, rfl⟩

/-- C6 (amended): every object node of the schema sent to the backend (there
are exactly four: the result, the beat items, the script items and the slide
items) declares `additionalProperties: false` with a fully-required property
set; local validation rejects unknown fields at the result's top level only —
unknown fields inside beats, script lines and slides are ignored. -/
theorem schema_strict_and_top_level_closed :
    (objectNodes 8 output_json_schema).length = 4
    ∧ (objectNodes 8 output_json_schema).all closedStrict = true
    ∧ (∀ fs p, p ∈ fs → p.1 ∉ episodeOutKeys →
        EpisodeOut.fromJson (.obj fs) = .error "Extra inputs are not permitted") := by
  refine ⟨rfl, rfl, ?_⟩
  intro fs p hp hnk
  simp only [EpisodeOut.fromJson]
  rw [if_neg (fun hall => hnk (hall p hp))]

/-- C6 witness: a concrete unknown top-level key is rejected. -/
theorem schema_strict_and_top_level_closed_witness :
    EpisodeOut.fromJson (.obj (("extra_key", Json.num 1) :: jWFields))
      = .error "Extra inputs are not permitted" :=
  schema_strict_and_top_level_closed.2.2 (("extra_key", Json.num 1) :: jWFields)
    ("extra_key", Json.num 1) (List.mem_cons_self _ _) (by decide)

/-- C7: with the backend credential absent, `/generate` always fails with a
503 service-unavailable error after zero backend calls, while `/health`
still reports `{"ok": true, "openai_key_configured": false}`. -/
theorem missing_credential_503_health_ok (cps : ℚ) (ep : EpisodeIn) (c1 c2 : ChatResult) :
    generate false cps ep c1 c2
      = (.error { status_code := 503, detail := "OPENAI_API_KEY is not configured on server" }, 0)
    ∧ health false = { ok := true, openai_key_configured := false } :=
  ⟨rfl, rfl⟩

/-- C8: a first attempt that raises, or returns empty content, or returns
unparsable content, fails the whole request with a 500 error carrying a
diagnostic message; no result is produced from a first attempt with no
content. -/
theorem first_attempt_failure_is_500 (cps : ℚ) (ep : EpisodeIn) (c2 : ChatResult) (m : String) :
    generate true cps ep .empty c2
      = (.error { status_code := 500, detail := "Empty content from OpenAI (1st try)" }, 1)
    ∧ generate true cps ep (.raise m) c2 = (.error { status_code := 500, detail := m }, 1)
    ∧ generate true cps ep (.invalid m) c2 = (.error { status_code := 500, detail := m }, 1) :=
  ⟨rfl, rfl, rfl⟩

/-- C9: the Prompt Builder is deterministic and pure — identical
`EpisodeIn` and `CHARS_PER_SEC` configuration yield identical system and
user prompts (and identical target/min/max counts). -/
theorem prompt_builder_deterministic (ep1 ep2 : EpisodeIn) (cps1 cps2 : ℚ)
    (he : ep1 = ep2) (hc : cps1 = cps2) :
    build_system_prompt = build_system_prompt
    ∧ build_user_prompt cps1 ep1 = build_user_prompt cps2 ep2 := by
  subst he
  subst hc
  exact ⟨rfl, rfl⟩

/-- C9 witness: determinism at a concrete input. -/
theorem prompt_builder_deterministic_witness :
    build_system_prompt = build_system_prompt
    ∧ build_user_prompt 1 epW = build_user_prompt 1 epW :=
  prompt_builder_deterministic epW epW 1 1 rfl rfl

/-- C10: frame property of the controller — any success body returned by
`/generate` is, field for field, exactly one of the two validated
candidates; the controller never modifies a candidate before returning it. -/
theorem generate_result_is_candidate (k : Bool) (cps : ℚ) (ep : EpisodeIn)
    (c1 c2 : ChatResult) (r : EpisodeOut) (n : Nat)
    (h : generate k cps ep c1 c2 = (.ok r, n)) :
    (∃ data, c1 = .json data ∧ EpisodeOut.fromJson data = .ok r)
    ∨ (∃ data2, c2 = .json data2 ∧ EpisodeOut.fromJson data2 = .ok r) := by
  cases k with
  | false => simp [generate] at h
  | true =>
    cases c1 with
    | raise m => simp [generate] at h
    | empty => simp [generate] at h
    | invalid m => simp [generate] at h
    | json data =>
      rcases hfj : EpisodeOut.fromJson data with m | out
      · rw [generate_json1_error cps ep hfj c2] at h
        simp at h
      · by_cases hin : inRange cps ep out
        · rw [generate_json1_ok_in hfj hin c2] at h
          simp only [Prod.mk.injEq, Except.ok.injEq] at h
          exact Or.inl ⟨data, rfl, h.1 ▸ hfj⟩
        · cases c2 with
          | raise m =>
            rw [generate_2_raise hfj hin m] at h
            simp at h
          | empty =>
            rw [generate_2_empty hfj hin] at h
            simp only [Prod.mk.injEq, Except.ok.injEq] at h
            exact Or.inl ⟨data, rfl, h.1 ▸ hfj⟩
          | invalid m =>
            rw [generate_2_invalid hfj hin m] at h
            simp at h
          | json data2 =>
            rcases hfj2 : EpisodeOut.fromJson data2 with m2 | out2
            · rw [generate_2_json_error hfj hin hfj2] at h
              simp at h
            · by_cases hin2 : inRange cps ep out2
              · rw [generate_2_json_ok_in hfj hin hfj2 hin2] at h
                simp only [Prod.mk.injEq, Except.ok.injEq] at h
                exact Or.inr ⟨data2, rfl, h.1 ▸ hfj2⟩
              · rw [generate_2_json_ok_out hfj hin hfj2 hin2] at h
                simp only [Prod.mk.injEq, Except.ok.injEq] at h
                exact Or.inl ⟨data, rfl, h.1 ▸ hfj⟩

/-- C10 witness: at a concrete in-range first candidate the returned body is
the first candidate. -/
theorem generate_result_is_candidate_witness :
    (∃ data, (ChatResult.json jW) = ChatResult.json data ∧ EpisodeOut.fromJson data = .ok outW)
    ∨ (∃ data2, (ChatResult.empty : ChatResult) = ChatResult.json data2
        ∧ EpisodeOut.fromJson data2 = .ok outW) :=
  generate_result_is_candidate true 1 epW (.json jW) .empty outW 1
    (@generate_json1_ok_in 1 epW jW outW rfl inRange_epW_outW .empty)

end SelfTalk
